import Mathlib

/-
Verification of the test-orchestration harness of terraform-aws-lambda-monitored.

The Python sources under tests/ are shallowly embedded below:
  * tests/conftest.py : create_terraform_config (the config synthesizer) and
    the test_module_dir fixture.  Python's textwrap.dedent semantics is
    reproduced faithfully over lists of characters (whitespace-only lines are
    normalised to empty lines before the common margin is computed, then the
    margin is stripped from the start of every line it prefixes).
  * tests/test_module.py : the immediate-alert verifier sequence
    (sleep, then a single describe-alarms poll, then the state assertion) and
    the scoped terraform_apply lifecycle (modelled from the spec, since
    pytest_infrahouse is an external dependency).
  * tests/fixtures/lambda_with_errors/main.py : the error-simulating handler.
-/

set_option maxRecDepth 20000

/-! ## Character-list string machinery (Python str.split, textwrap.dedent) -/

/-- Whitespace as understood by textwrap.dedent: space or tab. -/
def isWsChar (c : Char) : Bool := c = ' ' || c = '\t'

/-- Drop the leading run of spaces/tabs (Python lstrip with " \t"). -/
def stripWs : List Char → List Char
  | [] => []
  | c :: r => if isWsChar c then stripWs r else c :: r

/-- The leading run of spaces/tabs of a line. -/
def wsLead : List Char → List Char
  | [] => []
  | c :: r => if isWsChar c then c :: wsLead r else []

/-- Longest common prefix of two character lists. -/
def commonPre : List Char → List Char → List Char
  | c :: r, d :: s => if c = d then c :: commonPre r s else []
  | _, _ => []

/-- Python text.split of a string on newline characters. -/
def lines : List Char → List (List Char)
  | [] => [[]]
  | c :: r =>
    if c = '\n' then [] :: lines r
    else
      match lines r with
      | [] => [[c]]
      | l :: ls => (c :: l) :: ls

/-- Inverse of `lines`: join with newline characters. -/
def unlines : List (List Char) → List Char
  | [] => []
  | [l] => l
  | l :: l₂ :: ls => l ++ '\n' :: unlines (l₂ :: ls)

/-- textwrap.dedent's first pass: a line consisting solely of whitespace is
normalised to an empty line; other lines are kept. -/
def normLine (l : List Char) : List Char := if (stripWs l).isEmpty && !l.isEmpty then [] else l

/-- textwrap.dedent's margin scan: fold the longest-common-prefix of the
leading whitespace of every line that has a non-whitespace character. -/
def marginAux : Option (List Char) → List (List Char) → Option (List Char)
  | m, [] => m
  | m, l :: ls =>
    if (stripWs l).isEmpty then marginAux m ls
    else
      match m with
      | none => marginAux (some (wsLead l)) ls
      | some mm => marginAux (some (commonPre mm (wsLead l))) ls

/-- The common margin of a list of lines (empty when no line qualifies). -/
def marginOf (ls : List (List Char)) : List Char := (marginAux none ls).getD []

/-- Strip the margin from a line when the margin is a prefix of it. -/
def dropMargin (m l : List Char) : List Char := if m.isPrefixOf l then l.drop m.length else l

/-- textwrap.dedent over a character list. -/
def dedentL (s : List Char) : List Char :=
  let ls := (lines s).map normLine
  unlines (ls.map (dropMargin (marginOf ls)))

/-- textwrap.dedent over a string. -/
def dedent (s : String) : String := String.mk (dedentL s.data)

/-- sub occurs as a contiguous substring of s. -/
def strContains (s sub : String) : Prop := sub.data <:+: s.data

instance (s sub : String) : Decidable (strContains s sub) :=
  inferInstanceAs (Decidable (_ <:+: _))

/-! ### Basic lemmas about the machinery -/

theorem lines_ne_nil (s : List Char) : lines s ≠ [] := by
  cases s with
  | nil => simp [lines]
  | cons c r =>
    simp only [lines]
    split
    · simp
    · split <;> simp_all

theorem unlines_cons₂ (l l₂ : List Char) (ls : List (List Char)) :
    unlines (l :: l₂ :: ls) = l ++ '\n' :: unlines (l₂ :: ls) := rfl

theorem mem_infix_unlines {l : List Char} {ls : List (List Char)} (h : l ∈ ls) :
    l <:+: unlines ls := by
  induction ls with
  | nil => cases h
  | cons x xs ih =>
    cases xs with
    | nil =>
      rcases List.mem_singleton.mp h with rfl
      exact List.infix_refl l
    | cons y ys =>
      rw [unlines_cons₂]
      rcases List.mem_cons.mp h with rfl | hmem
      · exact ⟨[], '\n' :: unlines (y :: ys), by simp⟩
      · have htail : l <:+: unlines (y :: ys) := ih hmem
        rcases htail with ⟨a, b, hab⟩
        exact ⟨x ++ '\n' :: a, b, by simp [← hab]⟩

/-- Prepending a head-extension to the first line of a line list. -/
def consHead (x : List Char) : List (List Char) → List (List Char)
  | [] => [x]
  | l :: ls => (x ++ l) :: ls

theorem lines_append (a b : List Char) :
    lines (a ++ b) = (lines a).dropLast ++ consHead ((lines a).getLastD []) (lines b) := by
  induction a with
  | nil =>
    cases hb : lines b with
    | nil => exact absurd hb (lines_ne_nil b)
    | cons l ls => simp [lines, consHead, hb]
  | cons c r ih =>
    by_cases hc : c = '\n'
    · subst hc
      have h1 : lines ('\n' :: (r ++ b)) = [] :: lines (r ++ b) := by simp [lines]
      have h2 : lines ('\n' :: r) = [] :: lines r := by simp [lines]
      rw [List.cons_append, h1, h2, ih]
      cases hr : lines r with
      | nil => exact absurd hr (lines_ne_nil r)
      | cons l ls => simp [List.dropLast, List.getLastD_cons]
    · cases hr : lines r with
      | nil => exact absurd hr (lines_ne_nil r)
      | cons l ls =>
        have h1 : lines (c :: r) = (c :: l) :: ls := by
          simp [lines, hc, hr]
        cases hrb : lines (r ++ b) with
        | nil => exact absurd hrb (lines_ne_nil (r ++ b))
        | cons m ms =>
          have h2 : lines (c :: (r ++ b)) = (c :: m) :: ms := by
            simp [lines, hc, hrb]
          rw [List.cons_append, h2, h1]
          rw [ih, hr] at hrb
          cases ls with
          | nil =>
            cases hb : lines b with
            | nil => exact absurd hb (lines_ne_nil b)
            | cons u us =>
              rw [hb] at hrb
              simp only [List.dropLast_single, List.nil_append, consHead,
                List.cons.injEq] at hrb
              obtain ⟨h3, h4⟩ := hrb
              subst h3
              subst h4
              simp [consHead, hb]
          | cons l₂ ls₂ =>
            simp only [List.dropLast, List.getLastD_cons, List.cons_append,
              List.cons.injEq] at hrb
            obtain ⟨h3, h4⟩ := hrb
            subst h3
            subst h4
            rw [show ((c :: l) :: l₂ :: ls₂).dropLast = (c :: l) :: (l₂ :: ls₂).dropLast from rfl,
              show ((c :: l) :: l₂ :: ls₂).getLastD [] = ls₂.getLastD l₂ from by
                rw [List.getLastD_cons, List.getLastD_cons],
              List.cons_append]

theorem mem_lines_right {l : List Char} (a b : List Char) (h : l ∈ (lines b).tail) :
    l ∈ lines (a ++ b) := by
  rw [lines_append]
  apply List.mem_append_right
  cases hb : lines b with
  | nil => exact absurd hb (lines_ne_nil b)
  | cons x xs =>
    rw [hb] at h
    simp only [List.tail_cons] at h
    simp only [consHead, hb, List.mem_cons]
    right
    exact h

theorem mem_lines_interior {l : List Char} (x p y : List Char)
    (h : l ∈ ((lines p).dropLast).tail) : l ∈ lines (x ++ p ++ y) := by
  rw [List.append_assoc]
  apply mem_lines_right
  rw [lines_append]
  cases hd : (lines p).dropLast with
  | nil => rw [hd] at h; cases h
  | cons d ds =>
    rw [hd] at h
    simp only [List.tail_cons] at h
    rw [List.cons_append, List.tail_cons]
    exact List.mem_append_left _ h

theorem stripWs_isSuffix (l : List Char) : stripWs l <:+ l := by
  induction l with
  | nil => exact List.suffix_refl []
  | cons c r ih =>
    by_cases hc : isWsChar c
    · rw [show stripWs (c :: r) = stripWs r from by simp [stripWs, hc]]
      exact ih.trans (List.suffix_cons c r)
    · rw [show stripWs (c :: r) = c :: r from by simp [stripWs, hc]]

theorem stripWs_ws_append {w : List Char} (hw : ∀ c ∈ w, isWsChar c = true) (l : List Char) :
    stripWs (w ++ l) = stripWs l := by
  induction w with
  | nil => rfl
  | cons c r ih =>
    have hc : isWsChar c = true := hw c (by simp)
    rw [List.cons_append, show stripWs (c :: (r ++ l)) = stripWs (r ++ l) from by
      simp [stripWs, hc]]
    exact ih (fun d hd => hw d (by simp [hd]))

theorem stripWs_eq_nil_of_ws {w : List Char} (hw : ∀ c ∈ w, isWsChar c = true) :
    stripWs w = [] := by
  have := stripWs_ws_append hw []
  simpa using this

theorem mem_wsLead_ws {c : Char} {l : List Char} (h : c ∈ wsLead l) : isWsChar c = true := by
  induction l with
  | nil => cases h
  | cons d r ih =>
    by_cases hd : isWsChar d
    · rw [show wsLead (d :: r) = d :: wsLead r from by simp [wsLead, hd]] at h
      rcases List.mem_cons.mp h with rfl | h
      · exact hd
      · exact ih h
    · rw [show wsLead (d :: r) = [] from by simp [wsLead, hd]] at h
      cases h

theorem mem_commonPre_left {c : Char} : ∀ {a b : List Char}, c ∈ commonPre a b → c ∈ a := by
  intro a
  induction a with
  | nil => intro b h; cases h
  | cons x r ih =>
    intro b h
    cases b with
    | nil => cases h
    | cons y s =>
      by_cases hxy : x = y
      · rw [show commonPre (x :: r) (y :: s) = x :: commonPre r s from by
          simp [commonPre, hxy]] at h
        rcases List.mem_cons.mp h with rfl | h
        · simp
        · exact List.mem_cons_of_mem _ (ih h)
      · rw [show commonPre (x :: r) (y :: s) = [] from by simp [commonPre, hxy]] at h
        cases h

theorem marginAux_ws {m : Option (List Char)}
    (hm : ∀ mm, m = some mm → ∀ c ∈ mm, isWsChar c = true) :
    ∀ (ls : List (List Char)) (c : Char), c ∈ (marginAux m ls).getD [] → isWsChar c = true := by
  intro ls
  induction ls generalizing m with
  | nil =>
    intro c hc
    cases m with
    | none => cases hc
    | some mm => exact hm mm rfl c hc
  | cons l ls ih =>
    intro c hc
    by_cases hl : (stripWs l).isEmpty
    · rw [show marginAux m (l :: ls) = marginAux m ls from by
        simp [marginAux, hl]] at hc
      exact ih hm c hc
    · cases m with
      | none =>
        rw [show marginAux none (l :: ls) = marginAux (some (wsLead l)) ls from by
          simp [marginAux, hl]] at hc
        exact ih (fun mm hmm c hcm => by
          rw [Option.some.injEq] at hmm
          exact mem_wsLead_ws (hmm ▸ hcm)) c hc
      | some mm =>
        rw [show marginAux (some mm) (l :: ls) = marginAux (some (commonPre mm (wsLead l))) ls from by
          simp [marginAux, hl]] at hc
        exact ih (fun m₂ hm₂ c hcm => by
          rw [Option.some.injEq] at hm₂
          exact hm mm rfl c (mem_commonPre_left (hm₂ ▸ hcm))) c hc

theorem marginOf_ws (ls : List (List Char)) : ∀ c ∈ marginOf ls, isWsChar c = true :=
  fun c hc => marginAux_ws (fun _ h => by cases h) ls c hc

theorem isPrefixOf_eq_append {m l : List Char} (h : m.isPrefixOf l = true) :
    l = m ++ l.drop m.length := by
  induction m generalizing l with
  | nil => simp
  | cons c r ih =>
    cases l with
    | nil => simp [List.isPrefixOf] at h
    | cons d s =>
      simp only [List.isPrefixOf, Bool.and_eq_true, beq_iff_eq] at h
      obtain ⟨rfl, h2⟩ := h
      simpa using ih h2

theorem infix_of_infix_suffix {n s t : List Char} (h1 : n <:+: s) (h2 : s <:+ t) : n <:+: t :=
  h1.trans h2.isInfix

theorem infix_dedentL {x p y l needle : List Char}
    (hl : l ∈ ((lines p).dropLast).tail)
    (hn : needle <:+: stripWs l) (hne : needle ≠ []) :
    needle <:+: dedentL (x ++ p ++ y) := by
  have hmem : l ∈ lines (x ++ p ++ y) := mem_lines_interior x p y hl
  have hsw : ¬(stripWs l).isEmpty := by
    intro h
    rw [List.isEmpty_iff] at h
    rw [h] at hn
    rcases hn with ⟨a, b, hab⟩
    have : a = [] ∧ needle ++ b = [] := by
      constructor
      · cases a with
        | nil => rfl
        | cons u v => simp at hab
      · cases a with
        | nil => simpa using hab
        | cons u v => simp at hab
    exact hne (by
      rcases List.append_eq_nil.mp this.2 with ⟨h1, _⟩
      exact h1)
  have hnorm : normLine l = l := by
    simp [normLine, hsw]
  set ls := (lines (x ++ p ++ y)).map normLine with hls
  have hmem₂ : l ∈ ls := by
    rw [hls]
    exact hnorm ▸ List.mem_map_of_mem normLine hmem
  set m := marginOf ls with hm
  have hmem₃ : dropMargin m l ∈ ls.map (dropMargin m) := List.mem_map_of_mem _ hmem₂
  have hkey : needle <:+: dropMargin m l := by
    by_cases hpre : m.isPrefixOf l
    · have hdrop : dropMargin m l = l.drop m.length := by simp [dropMargin, hpre]
      have hsplit : l = m ++ l.drop m.length := isPrefixOf_eq_append hpre
      have hstrip : stripWs l = stripWs (l.drop m.length) := by
        conv_lhs => rw [hsplit]
        exact stripWs_ws_append (fun c hc => marginOf_ws ls c hc) _
      rw [hdrop]
      exact infix_of_infix_suffix (hstrip ▸ hn) (stripWs_isSuffix _)
    · have hdrop : dropMargin m l = l := by simp [dropMargin, hpre]
      rw [hdrop]
      exact infix_of_infix_suffix hn (stripWs_isSuffix _)
  exact hkey.trans (mem_infix_unlines hmem₃)

theorem lines_single_noNl {mid : List Char} (h : ∀ c ∈ mid, c ≠ '\n') :
    lines (mid ++ ['\n']) = [mid, []] := by
  induction mid with
  | nil => simp [lines]
  | cons c r ih =>
    have hc : c ≠ '\n' := h c (by simp)
    rw [List.cons_append, show lines (c :: (r ++ ['\n'])) =
      match lines (r ++ ['\n']) with
      | [] => [[c]]
      | l :: ls => (c :: l) :: ls from by simp [lines, hc]]
    rw [ih (fun d hd => h d (by simp [hd]))]

theorem infix_dedentL_spliced {x mid y needle : List Char}
    (hmid : ∀ c ∈ mid, c ≠ '\n')
    (hn : needle <:+: stripWs mid) (hne : needle ≠ []) :
    needle <:+: dedentL (x ++ ('\n' :: mid ++ '\n' :: y)) := by
  have hassoc : x ++ ('\n' :: mid ++ '\n' :: y) = x ++ ('\n' :: mid ++ ['\n']) ++ y := by
    simp
  rw [hassoc]
  apply infix_dedentL (l := mid) _ hn hne
  rw [show '\n' :: mid ++ ['\n'] = '\n' :: (mid ++ ['\n']) from by simp,
    show lines ('\n' :: (mid ++ ['\n'])) = [] :: lines (mid ++ ['\n']) from by simp [lines],
    lines_single_noNl hmid]
  simp

/-! ## Embedding of tests/conftest.py : create_terraform_config

The string pieces below are the exact literal fragments of the Python
f-strings and plain strings in create_terraform_config, written before the
dedent call and split at the interpolation points.  Literal braces are
written with hexadecimal escapes. -/

def tt0 : String := "\n        terraform \x7b\n          required_version = \"~> 1.0\"\n\n          required_providers \x7b\n            aws = \x7b\n              source  = \"hashicorp/aws\"\n              version = \""

def tt1 : String := "\"\n            \x7d\n          \x7d\n        \x7d\n        "

def vvRaw : String := "\n            variable \"subnet_ids\" \x7b\n              description = \"List of subnet IDs for Lambda VPC configuration\"\n              type        = list(string)\n            \x7d\n\n            variable \"function_name\" \x7b\n              description = \"Lambda function name\"\n              type        = string\n            \x7d\n            "

def vt0 : String := "\n        variable \"region\" \x7b\n          description = \"AWS region\"\n          type        = string\n        \x7d\n\n        variable \"role_arn\" \x7b\n          description = \"IAM role ARN to assume\"\n          type        = string\n          default     = null\n        \x7d\n\n        "

def vt1 : String := "\n        "

def providerRaw : String := "\n        provider \"aws\" \x7b\n          region = var.region\n          dynamic \"assume_role\" \x7b\n            for_each = var.role_arn != null ? [1] : []\n            content \x7b\n              role_arn = var.role_arn\n            \x7d\n          \x7d\n          default_tags \x7b\n            tags = \x7b\n              \"created_by\" : \"infrahouse/terraform-aws-lambda-monitored\"\n            \x7d\n          \x7d\n        \x7d\n        "

def sgRaw : String := "\n            # Get VPC ID from subnet\n            data \"aws_subnet\" \"selected\" \x7b\n              id = var.subnet_ids[0]\n            \x7d\n\n            # Security group for Lambda\n            resource \"aws_security_group\" \"lambda\" \x7b\n              name_prefix = \"$\x7bvar.function_name\x7d-\"\n              description = \"Security group for $\x7bvar.function_name\x7d Lambda function\"\n              vpc_id      = data.aws_subnet.selected.vpc_id\n\n              egress \x7b\n                from_port   = 0\n                to_port     = 0\n                protocol    = \"-1\"\n                cidr_blocks = [\"0.0.0.0/0\"]\n              \x7d\n\n              tags = \x7b\n                Name       = \"$\x7bvar.function_name\x7d-sg\"\n                created_by = \"terraform-aws-lambda-monitored-test\"\n              \x7d\n            \x7d\n            "

def vpcOwnedLit : String := "\n          # VPC Configuration\n          lambda_subnet_ids         = var.subnet_ids\n          lambda_security_group_ids = [aws_security_group.lambda.id]\n        "

def ve0 : String := "\n          # VPC Configuration\n          lambda_subnet_ids         = "

def ve1 : String := "\n          lambda_security_group_ids = "

def ve2 : String := "\n        "

def mt0 : String := "\n        "

def mt1 : String := "\n        module \"lambda_monitored\" \x7b\n          source = \"./..\"  # Points to the root module\n\n          function_name     = \""

def mt2 : String := "\"\n          lambda_source_dir = \""

def mt3 : String := "\"\n          python_version    = \""

def mt4 : String := "\"\n          architecture      = \""

def mt5 : String := "\"\n          alert_strategy    = \""

def mt6 : String := "\"\n\n          alarm_emails = [\""

def mt7 : String := "\"]\n\n          # Threshold-specific settings\n          error_rate_threshold            = 5.0\n          error_rate_evaluation_periods   = 2\n          error_rate_datapoints_to_alarm  = 2\n          "

def mt8 : String := "\n          tags = \x7b\n            Environment = \"test\"\n            ManagedBy   = \"terraform\"\n          \x7d\n        \x7d\n        "

def outputsRaw : String := "\n        output \"lambda_function_arn\" \x7b\n          value = module.lambda_monitored.lambda_function_arn\n        \x7d\n\n        output \"lambda_function_name\" \x7b\n          value = module.lambda_monitored.lambda_function_name\n        \x7d\n\n        output \"lambda_role_arn\" \x7b\n          value = module.lambda_monitored.lambda_role_arn\n        \x7d\n\n        output \"cloudwatch_log_group_name\" \x7b\n          value = module.lambda_monitored.cloudwatch_log_group_name\n        \x7d\n\n        output \"sns_topic_arn\" \x7b\n          value = module.lambda_monitored.sns_topic_arn\n        \x7d\n\n        output \"error_alarm_arn\" \x7b\n          value = module.lambda_monitored.error_alarm_arn\n        \x7d\n\n        output \"s3_bucket_name\" \x7b\n          value = module.lambda_monitored.s3_bucket_name\n        \x7d\n\n        output \"requirements_file_used\" \x7b\n          value = module.lambda_monitored.requirements_file_used\n        \x7d\n\n        output \"vpc_config_subnet_ids\" \x7b\n          value = module.lambda_monitored.vpc_config_subnet_ids\n        \x7d\n\n        output \"vpc_config_security_group_ids\" \x7b\n          value = module.lambda_monitored.vpc_config_security_group_ids\n        \x7d\n        "

/-- Python truthiness of an optional list argument (None and [] are falsy). -/
def listTruthy (o : Option (List String)) : Bool :=
  match o with
  | none => false
  | some l => !l.isEmpty

/-- Python truthiness of an optional string argument (None and the empty
string are falsy). -/
def optStrTruthy (o : Option String) : Bool :=
  match o with
  | none => false
  | some s => !s.isEmpty

/-- json.dumps of a list of strings (default separator is a comma and a
space). -/
def jsonDumpsList (l : List String) : String :=
  "[" ++ String.intercalate ", " (l.map (fun s => "\"" ++ s ++ "\"")) ++ "]"

/-- str(lambda_source_dir).replace of every backslash by a forward slash. -/
def replaceBackslashes (s : String) : String :=
  String.mk (s.data.map (fun c => if c = '\\' then '/' else c))

/-- The keyword parameters of create_terraform_config (tests/conftest.py,
with the source's default values). -/
structure TfParams where
  function_name : String
  lambda_source_dir : String
  alarm_email : String
  aws_provider_version : String
  python_version : String := "python3.12"
  architecture : String := "x86_64"
  alert_strategy : String := "immediate"
  aws_region : String := "us-west-2"
  role_arn : Option String := none
  subnet_ids : Option (List String) := none
  security_group_ids : Option (List String) := none
deriving DecidableEq

/-- Content written to terraform.tf. -/
def terraform_tf (p : TfParams) : String := dedent (tt0 ++ p.aws_provider_version ++ tt1)

/-- The vpc_variables local: non-empty exactly when subnet_ids is truthy and
security_group_ids is None. -/
def vpc_variables (p : TfParams) : String :=
  if listTruthy p.subnet_ids && p.security_group_ids.isNone then dedent vvRaw else ""

/-- Content written to variables.tf. -/
def variables_tf (p : TfParams) : String := dedent (vt0 ++ vpc_variables p ++ vt1)

/-- Content written to provider.tf (constant). -/
def provider_tf : String := dedent providerRaw

/-- The dedented security-group block declared when the synthesizer owns the
security group. -/
def sgResourceLit : String := dedent sgRaw

/-- The sg_resource local of create_terraform_config. -/
def sg_resource (p : TfParams) : String :=
  if listTruthy p.subnet_ids && p.security_group_ids.isNone then sgResourceLit else ""

/-- The vpc_config local of create_terraform_config (if / elif / neither). -/
def vpc_config (p : TfParams) : String :=
  if listTruthy p.subnet_ids && p.security_group_ids.isNone then vpcOwnedLit
  else if listTruthy p.subnet_ids && listTruthy p.security_group_ids then
    ve0 ++ jsonDumpsList (p.subnet_ids.getD []) ++ ve1
      ++ jsonDumpsList (p.security_group_ids.getD []) ++ ve2
  else ""

/-- The interpolated main.tf f-string before the dedent call. -/
def mainTfRaw (p : TfParams) : String :=
  mt0 ++ sg_resource p ++ mt1 ++ p.function_name ++ mt2
    ++ replaceBackslashes p.lambda_source_dir ++ mt3 ++ p.python_version
    ++ mt4 ++ p.architecture ++ mt5 ++ p.alert_strategy
    ++ mt6 ++ p.alarm_email ++ mt7 ++ vpc_config p ++ mt8

/-- Content written to main.tf. -/
def main_tf (p : TfParams) : String := dedent (mainTfRaw p)

/-- Content written to outputs.tf (constant). -/
def outputs_tf : String := dedent outputsRaw

/-- Content written to terraform.tfvars. -/
def tfvars_content (p : TfParams) : String :=
  "region = \"" ++ p.aws_region ++ "\"\n"
    ++ (if optStrTruthy p.role_arn then "role_arn = \"" ++ p.role_arn.getD "" ++ "\"\n" else "")
    ++ (if listTruthy p.subnet_ids && p.security_group_ids.isNone then
          "subnet_ids = " ++ jsonDumpsList (p.subnet_ids.getD []) ++ "\n"
            ++ "function_name = \"" ++ p.function_name ++ "\"\n"
        else "")

/-- A directory of files, as a map from file name to content. -/
def FS := String → Option String

/-- The empty directory. -/
def emptyFS : FS := fun _ => none

/-- write_text: create or overwrite a file. -/
def writeFile (name content : String) (fs : FS) : FS :=
  fun n => if n = name then some content else fs n

/-- unlink with a swallowed FileNotFoundError: remove a file if present. -/
def deleteFile (name : String) (fs : FS) : FS :=
  fun n => if n = name then none else fs n

/-- create_terraform_config (tests/conftest.py): removes the stale
.terraform.lock.hcl, then writes the six generated files in source order. -/
def create_terraform_config (p : TfParams) (fs : FS) : FS :=
  writeFile "terraform.tfvars" (tfvars_content p)
    (writeFile "outputs.tf" outputs_tf
      (writeFile "main.tf" (main_tf p)
        (writeFile "provider.tf" provider_tf
          (writeFile "variables.tf" (variables_tf p)
            (writeFile "terraform.tf" (terraform_tf p)
              (deleteFile ".terraform.lock.hcl" fs))))))

/-- The file names generated by the synthesizer. -/
def generatedFileNames : List String :=
  ["terraform.tf", "variables.tf", "provider.tf", "main.tf", "outputs.tf", "terraform.tfvars"]

/-! ## Embedding of tests/test_module.py -/

/-- Alarm states of the monitoring boundary. -/
inductive AlarmState
  | OK
  | ALARM
  | INSUFFICIENT_DATA
deriving DecidableEq

/-- The StateValue string describe_alarms reports for each state. -/
def stateValue : AlarmState → String
  | .OK => "OK"
  | .ALARM => "ALARM"
  | .INSUFFICIENT_DATA => "INSUFFICIENT_DATA"

/-- The accepted list in test_immediate_alert_strategy. -/
def acceptable_alarm_states : List String := ["ALARM", "INSUFFICIENT_DATA"]

/-- The verifier's assertion on the observed StateValue string
(tests/test_module.py line 319). -/
def alarm_state_check (alarm_state : String) : Bool :=
  acceptable_alarm_states.contains alarm_state

/-- Observable timing steps the immediate-alert verifier performs against
external services after inducing the failing invocation. -/
inductive VerifierStep
  | sleepStep (seconds : Nat)
  | pollStep (alarmName : String)
deriving DecidableEq

/-- The alarm name polled by the test: function_name followed by
-errors-immediate. -/
def immediate_alarm_name (function_name : String) : String :=
  function_name ++ "-errors-immediate"

/-- tests/test_module.py lines 310-315: time.sleep(90), then one
describe_alarms call on the alarm name. -/
def immediate_verifier_steps (function_name : String) : List VerifierStep :=
  [.sleepStep 90, .pollStep (immediate_alarm_name function_name)]

/-- The evaluation period stated by the source comment: CloudWatch alarms
evaluate every 60 seconds. -/
def cloudwatch_evaluation_period_seconds : Nat := 60

/-- Recognise a poll of the monitoring backend. -/
def isPollStep : VerifierStep → Bool
  | .pollStep _ => true
  | _ => false

/-- Number of polls of the monitoring backend in a step list. -/
def pollCount (steps : List VerifierStep) : Nat := steps.countP isPollStep

/-- Seconds slept before the first poll of the monitoring backend. -/
def sleep_before_first_poll : List VerifierStep → Nat
  | [] => 0
  | .sleepStep n :: r => n + sleep_before_first_poll r
  | .pollStep _ :: _ => 0

/-- Exit paths of a with-block body. -/
inductive ScenarioExit
  | normalReturn
  | assertionFailure
  | exceptionRaised
deriving DecidableEq

/-- Observable lifecycle operations at the provisioning boundary. -/
inductive LifecycleOp
  | applyOp
  | invokeOp
  | pollOp
  | destroyOp
deriving DecidableEq

/-- Modelled from the spec: pytest_infrahouse.terraform_apply, the scoped
lifecycle controller entered at tests/test_module.py lines 60-64 and 289-293,
is an external dependency whose implementation is not in this repository.
Per spec section 4.2 it has scoped acquisition semantics: acquire provisions
the infrastructure, the body runs to some exit, and the release (destroy)
runs unconditionally on every exit path exactly when destroy_after holds.
This is the event trace of a scope whose apply succeeded. -/
def terraform_apply_scope (destroy_after : Bool) (body : ScenarioExit → List LifecycleOp)
    (exit : ScenarioExit) : List LifecycleOp :=
  .applyOp :: body exit ++ (if destroy_after then [.destroyOp] else [])

/-- The tests enter the scope with destroy_after set to the negation of
keep_after (tests/test_module.py line 62). -/
def test_scenario_events (keep_after : Bool) (body : ScenarioExit → List LifecycleOp)
    (exit : ScenarioExit) : List LifecycleOp :=
  terraform_apply_scope (!keep_after) body exit

/-- Number of destroy operations in a lifecycle trace. -/
def destroyCount (es : List LifecycleOp) : Nat :=
  es.countP (fun e => decide (e = LifecycleOp.destroyOp))

/-- test_module_dir fixture (tests/conftest.py lines 327-342): a consistent
directory in the project root, deliberately reused across test runs so that
Terraform state survives for keep-after debugging sessions. -/
def test_module_dir : String := "test_data"

/-- The working directory a scenario renders into and applies from: every
test function receives the test_module_dir fixture and passes it to both
create_terraform_config and terraform_apply, whatever the parameter
combination of the scenario is. -/
def scenario_module_dir (_p : TfParams) : String := test_module_dir

/-! ## Embedding of tests/fixtures/lambda_with_errors/main.py -/

/-- Python values appearing in test events. -/
inductive PyVal
  | pyBool (b : Bool)
  | pyStr (s : String)
  | pyInt (n : Int)
  | pyNone
deriving DecidableEq

/-- Python truthiness of a value. -/
def pyTruthy : PyVal → Bool
  | .pyBool b => b
  | .pyStr s => !s.isEmpty
  | .pyInt n => decide (n ≠ 0)
  | .pyNone => false

/-- A Lambda event: a JSON object given as key-value pairs. -/
abbrev Event := List (String × PyVal)

/-- dict.get with a default. -/
def eventGet (e : Event) (k : String) (dflt : PyVal) : PyVal :=
  (e.lookup k).getD dflt

/-- json.dumps of a Python value. -/
def jsonOfPyVal : PyVal → String
  | .pyBool true => "true"
  | .pyBool false => "false"
  | .pyStr s => "\"" ++ s ++ "\""
  | .pyInt n => toString n
  | .pyNone => "null"

/-- json.dumps of the event dict (default separators). -/
def jsonOfEvent (e : Event) : String :=
  "\x7b" ++ String.intercalate ", "
    (e.map (fun kv => "\"" ++ kv.1 ++ "\": " ++ jsonOfPyVal kv.2)) ++ "\x7d"

/-- The structured response of the handler. -/
structure LambdaResponse where
  statusCode : Nat
  body : String
deriving DecidableEq

/-- The success response returned when no error is forced. -/
def successResponse (event : Event) : LambdaResponse :=
  { statusCode := 200
    body := "\x7b\"success\": true, \"message\": \"Function executed successfully\", \"event\": "
      ++ jsonOfEvent event ++ "\x7d" }

/-- lambda_handler (tests/fixtures/lambda_with_errors/main.py): raises
IntentionalTestError exactly when the event's force_error value is truthy,
otherwise returns the 200 success response. -/
def lambda_handler (event : Event) : Except String LambdaResponse :=
  if pyTruthy (eventGet event "force_error" (PyVal.pyBool false)) then
    Except.error "Intentional error for testing alarm functionality"
  else
    Except.ok (successResponse event)

/-! ## Claim theorems -/

/-- C2: after exhausting the wait budget the verifier accepts both ALARM and
INSUFFICIENT_DATA as non-failing outcomes and treats an observed OK state as
a failure of the expectation; it never passes on OK and never requires
strictly ALARM. -/
theorem alarm_check_accepts_alarm_or_insufficient :
    alarm_state_check (stateValue AlarmState.ALARM) = true
  ∧ alarm_state_check (stateValue AlarmState.INSUFFICIENT_DATA) = true
  ∧ alarm_state_check (stateValue AlarmState.OK) = false := by decide

/-- C3 counterexample: for the concrete scenario of the immediate-alert test
the verifier performs exactly one describe-alarms poll after its sleep, so it
is a single query, not a repeated poll at a bounded interval: the poll count
is not at least two. -/
theorem immediate_verifier_single_poll_counterexample :
    ¬2 ≤ pollCount (immediate_verifier_steps "test-immediate-alert") := by decide

/-- C3 amended: after inducing the invocation pattern the verifier sleeps a
fixed 90 seconds, which is at least one full 60-second evaluation period,
before its first and only poll of the monitoring backend; there is no retry
loop. -/
theorem immediate_verifier_waits_then_polls_once (function_name : String) :
    sleep_before_first_poll (immediate_verifier_steps function_name) = 90
  ∧ cloudwatch_evaluation_period_seconds ≤
      sleep_before_first_poll (immediate_verifier_steps function_name)
  ∧ pollCount (immediate_verifier_steps function_name) = 1 :=
  ⟨rfl, show (60 : Nat) ≤ 90 by decide, rfl⟩

/-- C1: for a successfully applied scenario the scoped lifecycle executes
destroy exactly once whatever the exit path of the body (normal return,
assertion failure, or a raised exception) when teardown is enabled, and zero
times when the caller opted out with keep_after; the probe and verifier body
itself performs no destroy. -/
theorem destroy_runs_exactly_once (keep_after : Bool) (exit : ScenarioExit)
    (body : ScenarioExit → List LifecycleOp) (hbody : ∀ ex, destroyCount (body ex) = 0) :
    destroyCount (test_scenario_events keep_after body exit) =
      if keep_after then 0 else 1 := by
  have hb := hbody exit
  unfold destroyCount at hb ⊢
  cases keep_after <;>
    simp [test_scenario_events, terraform_apply_scope, List.countP_cons,
      List.countP_append, hb]

/-- C1 witness: the immediate-alert scenario body (a successful invoke, a
failing invoke and an alarm poll), on the raised-exception exit path with
teardown enabled, destroys exactly once. -/
theorem destroy_runs_exactly_once_witness :
    destroyCount (test_scenario_events false
      (fun _ => [LifecycleOp.invokeOp, LifecycleOp.invokeOp, LifecycleOp.pollOp])
      ScenarioExit.exceptionRaised) = if false then 0 else 1 :=
  destroy_runs_exactly_once false ScenarioExit.exceptionRaised _
    (fun ex => by cases ex <;> rfl)

/-- C9: the error-simulating handler raises its function-level error exactly
when the event's force_error value is truthy, and otherwise raises nothing
and returns the response with status code 200 and the success body. -/
theorem lambda_handler_force_error (event : Event) :
    (pyTruthy (eventGet event "force_error" (PyVal.pyBool false)) = true →
      lambda_handler event = Except.error "Intentional error for testing alarm functionality")
  ∧ (pyTruthy (eventGet event "force_error" (PyVal.pyBool false)) = false →
      lambda_handler event = Except.ok (successResponse event)
        ∧ (successResponse event).statusCode = 200) := by
  constructor
  · intro h
    simp [lambda_handler, h]
  · intro h
    exact ⟨by simp [lambda_handler, h], rfl⟩

/-- C9 witness: a forced-error event raises, and the empty event returns the
200 success response. -/
theorem lambda_handler_force_error_witness :
    lambda_handler [("force_error", PyVal.pyBool true)] =
      Except.error "Intentional error for testing alarm functionality"
  ∧ lambda_handler [] = Except.ok (successResponse [])
  ∧ (successResponse []).statusCode = 200 :=
  ⟨(lambda_handler_force_error [("force_error", PyVal.pyBool true)]).1 (by decide),
   ((lambda_handler_force_error []).2 (by decide)).1,
   ((lambda_handler_force_error []).2 (by decide)).2⟩

/-- A concrete immediate-strategy scenario of the test matrix. -/
def scenarioImmediateX86 : TfParams :=
  { function_name := "test-immediate-alert"
    lambda_source_dir := "tests/fixtures/lambda_with_errors"
    alarm_email := "test@example.com"
    aws_provider_version := "~> 5.31"
    alert_strategy := "immediate" }

/-- A distinct concrete threshold-strategy scenario of the test matrix. -/
def scenarioThresholdArm : TfParams :=
  { function_name := "test-threshold-alert"
    lambda_source_dir := "tests/fixtures/lambda_with_errors"
    alarm_email := "test@example.com"
    aws_provider_version := "~> 6.0"
    architecture := "arm64"
    alert_strategy := "threshold" }

/-- C7 counterexample: two distinct scenarios use the same working directory,
so working directories are neither distinct per scenario nor derived from the
parameter combination. -/
theorem shared_module_dir_counterexample :
    scenarioImmediateX86 ≠ scenarioThresholdArm
  ∧ scenario_module_dir scenarioImmediateX86 = scenario_module_dir scenarioThresholdArm :=
  ⟨by decide, rfl⟩

/-- C7 amended: every scenario renders into and applies from one and the same
constant working directory, the test_data directory in the project root,
deliberately reused so Terraform state survives between runs for keep-after
debugging; the directory name does not depend on the parameter combination. -/
theorem module_dir_constant (p q : TfParams) :
    scenario_module_dir p = "test_data"
  ∧ scenario_module_dir p = scenario_module_dir q := ⟨rfl, rfl⟩

/-- C6: rendering is deterministic for identical parameters: re-rendering
over the output of a previous render leaves every file byte-identical, and
the content of every generated file is independent of the prior state of the
directory. -/
theorem render_deterministic_idempotent (p : TfParams) (fs fs₁ fs₂ : FS) :
    create_terraform_config p (create_terraform_config p fs) = create_terraform_config p fs
  ∧ generatedFileNames.map (create_terraform_config p fs₁) =
      generatedFileNames.map (create_terraform_config p fs₂) := by
  constructor
  · funext n
    simp only [create_terraform_config, writeFile, deleteFile]
    split_ifs <;> rfl
  · rfl

/-- C10: an empty security_group_ids list alongside truthy subnet_ids, or an
empty subnet_ids list, is treated as no network placement, unlike the None
security-group case: no security-group resource, no VPC configuration in the
module instantiation, no subnet or function-name variables, and no extra
tfvars entries; every rendered file equals the render of the fully
unnetworked parameter set. -/
theorem empty_lists_mean_no_network (p : TfParams)
    (h : (p.security_group_ids = some [] ∧ listTruthy p.subnet_ids = true)
       ∨ p.subnet_ids = some []) :
    sg_resource p = "" ∧ vpc_config p = "" ∧ vpc_variables p = ""
  ∧ main_tf p = main_tf { p with subnet_ids := none, security_group_ids := none }
  ∧ variables_tf p = variables_tf { p with subnet_ids := none, security_group_ids := none }
  ∧ tfvars_content p = tfvars_content { p with subnet_ids := none, security_group_ids := none } := by
  have hc1 : (listTruthy p.subnet_ids && p.security_group_ids.isNone) = false := by
    rcases h with ⟨hsg, _⟩ | hsub
    · simp [hsg]
    · simp [hsub, listTruthy]
  have hc2 : (listTruthy p.subnet_ids && listTruthy p.security_group_ids) = false := by
    rcases h with ⟨hsg, _⟩ | hsub
    · simp [hsg, listTruthy]
    · simp [hsub, listTruthy]
  have hsg0 : sg_resource p = "" := by simp [sg_resource, hc1]
  have hvc0 : vpc_config p = "" := by simp [vpc_config, hc1, hc2]
  have hvv0 : vpc_variables p = "" := by simp [vpc_variables, hc1]
  refine ⟨hsg0, hvc0, hvv0, ?_, ?_, ?_⟩
  · unfold main_tf mainTfRaw
    rw [hsg0, hvc0]
    simp [sg_resource, vpc_config, listTruthy]
  · unfold variables_tf
    rw [hvv0]
    simp [vpc_variables, listTruthy]
  · unfold tfvars_content
    rw [hc1]
    simp [listTruthy]

/-- The VPC scenario passed with an explicitly empty security-group list. -/
def sgEmptyScenario : TfParams :=
  { function_name := "test-vpc-lambda"
    lambda_source_dir := "tests/fixtures/simple_lambda"
    alarm_email := "test@example.com"
    aws_provider_version := "~> 5.31"
    subnet_ids := some ["subnet-1"]
    security_group_ids := some [] }

/-- C10 witness: the concrete empty-security-group scenario renders no
security-group resource and no VPC configuration. -/
theorem empty_lists_mean_no_network_witness :
    sg_resource sgEmptyScenario = "" ∧ vpc_config sgEmptyScenario = "" :=
  ⟨(empty_lists_mean_no_network sgEmptyScenario (Or.inl ⟨rfl, rfl⟩)).1,
   (empty_lists_mean_no_network sgEmptyScenario (Or.inl ⟨rfl, rfl⟩)).2.1⟩

/-! ## Containment of template lines in rendered files -/

theorem stripWs_head_not_ws {a : List Char} (b : List Char) (ha : a ≠ [])
    (hh : isWsChar a.headI = false) : stripWs (a ++ b) = a ++ b := by
  cases a with
  | nil => exact absurd rfl ha
  | cons c r =>
    simp only [List.headI] at hh
    simp [stripWs, hh]

/-- An interior template line of a piece of the raw text survives dedent of
the surrounding material. -/
theorem strContains_dedent_piece {x q y needle : String} {l : List Char}
    (hl : l ∈ ((lines q.data).dropLast).tail)
    (hn : needle.data <:+: stripWs l) (hne : needle.data ≠ []) :
    strContains (dedent (x ++ q ++ y)) needle := by
  show needle.data <:+: (dedent (x ++ q ++ y)).data
  have hd : (dedent (x ++ q ++ y)).data = dedentL (x.data ++ q.data ++ y.data) := by
    simp [dedent, String.data_append]
  rw [hd]
  exact infix_dedentL hl hn hne

/-- A full raw line whose spliced content has no newline survives dedent of
the surrounding material. -/
theorem strContains_dedent_spliced {x mid y needle : String}
    (hmid : ∀ c ∈ mid.data, c ≠ '\n')
    (hn : needle.data <:+: stripWs mid.data) (hne : needle.data ≠ []) :
    strContains (dedent (x ++ "\n" ++ mid ++ "\n" ++ y)) needle := by
  show needle.data <:+: (dedent (x ++ "\n" ++ mid ++ "\n" ++ y)).data
  have hnl : ("\n" : String).data = ['\n'] := rfl
  have hd : (dedent (x ++ "\n" ++ mid ++ "\n" ++ y)).data
      = dedentL (x.data ++ ('\n' :: mid.data ++ '\n' :: y.data)) := by
    simp [dedent, String.data_append, hnl, List.append_assoc]
  rw [hd]
  exact infix_dedentL_spliced hmid hn hne

/-- The needle recognising a security-group resource declaration. -/
def sgDeclNeedle : String := "resource \"aws_security_group\""

/-- Number of lines of a string whose whitespace-stripped content contains a
security-group resource declaration. -/
def sgDeclLineCount (s : String) : Nat :=
  ((lines s.data).map stripWs).countP (fun l => decide (sgDeclNeedle.data <:+: l))

/-- C8: every configuration the synthesizer renders binds the
threshold-strategy design constants exactly as the reference specifies: a 5
percent error-rate threshold, 2 evaluation periods and 2 datapoints to
alarm. -/
theorem threshold_constants_always_bound (p : TfParams) :
    strContains (main_tf p) "error_rate_threshold            = 5.0"
  ∧ strContains (main_tf p) "error_rate_evaluation_periods   = 2"
  ∧ strContains (main_tf p) "error_rate_datapoints_to_alarm  = 2" := by
  have hsplit : main_tf p = dedent
      ((mt0 ++ sg_resource p ++ mt1 ++ p.function_name ++ mt2
          ++ replaceBackslashes p.lambda_source_dir ++ mt3 ++ p.python_version
          ++ mt4 ++ p.architecture ++ mt5 ++ p.alert_strategy ++ mt6 ++ p.alarm_email)
        ++ mt7 ++ (vpc_config p ++ mt8)) := by
    unfold main_tf mainTfRaw
    simp only [String.append_assoc]
  rw [hsplit]
  refine ⟨?_, ?_, ?_⟩
  · exact strContains_dedent_piece
      (l := ("          error_rate_threshold            = 5.0").data)
      (by decide) (by decide) (by decide)
  · exact strContains_dedent_piece
      (l := ("          error_rate_evaluation_periods   = 2").data)
      (by decide) (by decide) (by decide)
  · exact strContains_dedent_piece
      (l := ("          error_rate_datapoints_to_alarm  = 2").data)
      (by decide) (by decide) (by decide)

/-- C5: when subnet identifiers are present and security_group_ids is None
the synthesizer takes the owned-security-group branch: the sg_resource block
is the fixed literal that declares exactly one security-group resource and
looks the owning VPC up from the first subnet identifier, the module
instantiation binds lambda_security_group_ids to that resource, all of it
reaches the rendered main.tf, and no other synthesizer-authored template text
declares a security group. -/
theorem owned_security_group (p : TfParams) (ss : List String)
    (hsub : p.subnet_ids = some ss) (hne : ss ≠ [])
    (hsg : p.security_group_ids = none) :
    sg_resource p = sgResourceLit
  ∧ vpc_config p = vpcOwnedLit
  ∧ sgDeclLineCount sgResourceLit = 1
  ∧ sgDeclLineCount vpcOwnedLit = 0
  ∧ sgDeclLineCount (mt0 ++ mt1 ++ mt2 ++ mt3 ++ mt4 ++ mt5 ++ mt6 ++ mt7 ++ mt8) = 0
  ∧ sgDeclLineCount (variables_tf p) = 0
  ∧ sgDeclLineCount provider_tf = 0
  ∧ sgDeclLineCount outputs_tf = 0
  ∧ strContains (main_tf p) "resource \"aws_security_group\" \"lambda\" \x7b"
  ∧ strContains (main_tf p) "lambda_security_group_ids = [aws_security_group.lambda.id]"
  ∧ strContains (main_tf p) "id = var.subnet_ids[0]" := by
  have htruthy : listTruthy p.subnet_ids = true := by
    rw [hsub]
    simp [listTruthy, hne]
  have h1 : sg_resource p = sgResourceLit := by simp [sg_resource, htruthy, hsg]
  have h2 : vpc_config p = vpcOwnedLit := by simp [vpc_config, htruthy, hsg]
  have hvv : vpc_variables p = dedent vvRaw := by simp [vpc_variables, htruthy, hsg]
  have hsplit1 : main_tf p = dedent (mt0 ++ sgResourceLit ++
      (mt1 ++ p.function_name ++ mt2 ++ replaceBackslashes p.lambda_source_dir
        ++ mt3 ++ p.python_version ++ mt4 ++ p.architecture ++ mt5 ++ p.alert_strategy
        ++ mt6 ++ p.alarm_email ++ mt7 ++ vpcOwnedLit ++ mt8)) := by
    unfold main_tf mainTfRaw
    rw [h1, h2]
    simp only [String.append_assoc]
  have hsplit2 : main_tf p = dedent ((mt0 ++ sgResourceLit ++ mt1 ++ p.function_name
      ++ mt2 ++ replaceBackslashes p.lambda_source_dir ++ mt3 ++ p.python_version
      ++ mt4 ++ p.architecture ++ mt5 ++ p.alert_strategy ++ mt6 ++ p.alarm_email ++ mt7)
      ++ vpcOwnedLit ++ mt8) := by
    unfold main_tf mainTfRaw
    rw [h1, h2]
  refine ⟨h1, h2, by decide, by decide, by decide, ?_, by decide, by decide, ?_, ?_, ?_⟩
  · unfold variables_tf
    rw [hvv]
    decide
  · rw [hsplit1]
    exact strContains_dedent_piece
      (l := ("resource \"aws_security_group\" \"lambda\" \x7b").data)
      (by decide) (by decide) (by decide)
  · rw [hsplit2]
    exact strContains_dedent_piece
      (l := ("          lambda_security_group_ids = [aws_security_group.lambda.id]").data)
      (by decide) (by decide) (by decide)
  · rw [hsplit1]
    exact strContains_dedent_piece
      (l := ("  id = var.subnet_ids[0]").data)
      (by decide) (by decide) (by decide)

/-- The concrete VPC scenario of the matrix: private subnets, no explicit
security groups. -/
def vpcScenario : TfParams :=
  { function_name := "test-vpc-lambda"
    lambda_source_dir := "tests/fixtures/simple_lambda"
    alarm_email := "test@example.com"
    aws_provider_version := "~> 5.31"
    subnet_ids := some ["subnet-0aaa", "subnet-0bbb"]
    security_group_ids := none }

/-- C5 witness: the concrete VPC scenario renders the owned security-group
block and the module instantiation references it. -/
theorem owned_security_group_witness :
    sg_resource vpcScenario = sgResourceLit
  ∧ strContains (main_tf vpcScenario)
      "lambda_security_group_ids = [aws_security_group.lambda.id]" :=
  ⟨(owned_security_group vpcScenario ["subnet-0aaa", "subnet-0bbb"] rfl (by decide) rfl).1,
   (owned_security_group vpcScenario ["subnet-0aaa", "subnet-0bbb"] rfl (by decide)
      rfl).2.2.2.2.2.2.2.2.2.1⟩

/-- Parameters whose architecture and alert-strategy are outside the accepted
enumerations. -/
def invalidParams : TfParams :=
  { function_name := "test-invalid"
    lambda_source_dir := "/tmp/lambda"
    alarm_email := "test@example.com"
    aws_provider_version := "~> 5.31"
    architecture := "bogus-arch"
    alert_strategy := "not-a-strategy" }

/-- C4 counterexample: with architecture and alert-strategy both outside the
accepted enumerations the synthesizer does not fail with any error before
emitting configuration: it writes main.tf with the invalid values spliced in
verbatim, so no InvalidParameters precondition check exists. -/
theorem no_validation_counterexample :
    create_terraform_config invalidParams emptyFS "main.tf" = some (main_tf invalidParams)
  ∧ strContains (main_tf invalidParams) "architecture      = \"bogus-arch\""
  ∧ strContains (main_tf invalidParams) "alert_strategy    = \"not-a-strategy\"" := by
  refine ⟨rfl, ?_, ?_⟩ <;> decide

/-- C4 amended: the synthesizer performs no local validation of the
architecture or alert-strategy values at all: for every parameter set,
including values outside the accepted enumerations, the configuration is
emitted and both values are spliced verbatim into the rendered main.tf; any
enumeration checking is left to the provisioning tool and module. -/
theorem no_validation_values_pass_through (p : TfParams)
    (harch : ∀ c ∈ p.architecture.data, c ≠ '\n')
    (hstrat : ∀ c ∈ p.alert_strategy.data, c ≠ '\n') :
    create_terraform_config p emptyFS "main.tf" = some (main_tf p)
  ∧ strContains (main_tf p) ("architecture      = \"" ++ p.architecture ++ "\"")
  ∧ strContains (main_tf p) ("alert_strategy    = \"" ++ p.alert_strategy ++ "\"") := by
  have hm4 : mt4 = "\"" ++ "\n" ++ "          " ++ "architecture      = \"" := by decide
  have hm5 : mt5 = "\"" ++ "\n" ++ "          " ++ "alert_strategy    = \"" := by decide
  have hm6 : mt6 = "\"" ++ "\n" ++ "\n          alarm_emails = [\"" := by decide
  refine ⟨rfl, ?_, ?_⟩
  · have hsplit : main_tf p = dedent
        ((mt0 ++ sg_resource p ++ mt1 ++ p.function_name ++ mt2
            ++ replaceBackslashes p.lambda_source_dir ++ mt3 ++ p.python_version ++ "\"")
          ++ "\n" ++ ("          " ++ ("architecture      = \"" ++ p.architecture ++ "\""))
          ++ "\n" ++ ("          " ++ "alert_strategy    = \"" ++ p.alert_strategy
            ++ mt6 ++ p.alarm_email ++ mt7 ++ vpc_config p ++ mt8)) := by
      unfold main_tf mainTfRaw
      rw [hm4, hm5]
      simp only [String.append_assoc]
    rw [hsplit]
    apply strContains_dedent_spliced
    · intro c hc
      rw [show ("          " ++ ("architecture      = \"" ++ p.architecture ++ "\"")).data
          = ("          ").data ++ (("architecture      = \"").data
            ++ (p.architecture.data ++ ("\"").data)) from by
        simp [String.data_append]] at hc
      rcases List.mem_append.mp hc with hc | hc
      · exact (show ∀ d ∈ ("          " : String).data, d ≠ '\n' by decide) c hc
      · rcases List.mem_append.mp hc with hc | hc
        · exact (show ∀ d ∈ ("architecture      = \"" : String).data, d ≠ '\n' by decide) c hc
        · rcases List.mem_append.mp hc with hc | hc
          · exact harch c hc
          · exact (show ∀ d ∈ ("\"" : String).data, d ≠ '\n' by decide) c hc
    · have hdata : ("          " ++ ("architecture      = \"" ++ p.architecture ++ "\"")).data
          = ("          ").data ++ (("architecture      = \"").data
            ++ (p.architecture.data ++ ("\"").data)) := by
        simp [String.data_append]
      rw [hdata, stripWs_ws_append (by decide),
        stripWs_head_not_ws _ (by decide) (by decide)]
      rw [show ("architecture      = \"" ++ p.architecture ++ "\"").data
          = ("architecture      = \"").data ++ (p.architecture.data ++ ("\"").data) from by
        simp [String.data_append]]
    · simp [String.data_append]
  · have hsplit : main_tf p = dedent
        ((mt0 ++ sg_resource p ++ mt1 ++ p.function_name ++ mt2
            ++ replaceBackslashes p.lambda_source_dir ++ mt3 ++ p.python_version
            ++ mt4 ++ p.architecture ++ "\"")
          ++ "\n" ++ ("          " ++ ("alert_strategy    = \"" ++ p.alert_strategy ++ "\""))
          ++ "\n" ++ ("\n          alarm_emails = [\"" ++ p.alarm_email ++ mt7
            ++ vpc_config p ++ mt8)) := by
      unfold main_tf mainTfRaw
      rw [hm5, hm6]
      simp only [String.append_assoc]
    rw [hsplit]
    apply strContains_dedent_spliced
    · intro c hc
      rw [show ("          " ++ ("alert_strategy    = \"" ++ p.alert_strategy ++ "\"")).data
          = ("          ").data ++ (("alert_strategy    = \"").data
            ++ (p.alert_strategy.data ++ ("\"").data)) from by
        simp [String.data_append]] at hc
      rcases List.mem_append.mp hc with hc | hc
      · exact (show ∀ d ∈ ("          " : String).data, d ≠ '\n' by decide) c hc
      · rcases List.mem_append.mp hc with hc | hc
        · exact (show ∀ d ∈ ("alert_strategy    = \"" : String).data, d ≠ '\n' by decide) c hc
        · rcases List.mem_append.mp hc with hc | hc
          · exact hstrat c hc
          · exact (show ∀ d ∈ ("\"" : String).data, d ≠ '\n' by decide) c hc
    · have hdata : ("          " ++ ("alert_strategy    = \"" ++ p.alert_strategy ++ "\"")).data
          = ("          ").data ++ (("alert_strategy    = \"").data
            ++ (p.alert_strategy.data ++ ("\"").data)) := by
        simp [String.data_append]
      rw [hdata, stripWs_ws_append (by decide),
        stripWs_head_not_ws _ (by decide) (by decide)]
      rw [show ("alert_strategy    = \"" ++ p.alert_strategy ++ "\"").data
          = ("alert_strategy    = \"").data ++ (p.alert_strategy.data ++ ("\"").data) from by
        simp [String.data_append]]
    · simp [String.data_append]

/-- C4 witness: the concrete invalid parameter set passes both invalid values
through into the rendered main.tf. -/
theorem no_validation_values_pass_through_witness :
    strContains (main_tf invalidParams)
      ("architecture      = \"" ++ invalidParams.architecture ++ "\"")
  ∧ strContains (main_tf invalidParams)
      ("alert_strategy    = \"" ++ invalidParams.alert_strategy ++ "\"") :=
  ⟨(no_validation_values_pass_through invalidParams (by decide) (by decide)).2.1,
   (no_validation_values_pass_through invalidParams (by decide) (by decide)).2.2⟩
